import Mathlib

/-!
# Drawpile: wire messages, user flags and network constants

A shallow embedding of

* `src/shared/net/image.h`  (namespace `protocol`: `PutImage`, `FillRect`, `MoveRegion`),
* `src/server/user.h`       (`User` capability and extension flags),
* `src/server/network.h`    (namespace `Network`: address constants),

followed by theorems about the embedded definitions.

Conventions.  Unsigned C++ integers of width `w` are natural numbers reduced
modulo `2^w`; signed 32-bit integers are integers reduced into
`[-2^31, 2^31)` by `wrap32`.  A `QByteArray` is a list of octets.  A
constructor that can abort returns an `Option`; where the abort depends on the
build (`Q_ASSERT`), the build switch is an explicit argument.
-/

/-! ## Machine integers -/

/-- Reduction of an integer into the range of `int32_t` (two's complement). -/
def wrap32 (z : Int) : Int := (z + 2 ^ 31) % 2 ^ 32 - 2 ^ 31

/-- Qt's `qMin` template: `(a < b) ? a : b`. -/
def qMin (a b : Int) : Int := if a < b then a else b

/-- Qt's `qMax` template: `(a < b) ? b : a`. -/
def qMax (a b : Int) : Int := if a < b then b else a

/-! ## Qt geometry types used by `image.h`

`QPoint` and `QRect` come from the Qt library, not from the repository.  They
are embedded after their inline definitions in Qt's `qpoint.h` and `qrect.h`:
a `QRect` stores its two corner points `(x1, y1)` and `(x2, y2)`, both
inclusive. -/

/-- Qt's `QPoint`: a pair of `int` coordinates. -/
structure QPoint where
  xp : Int
  yp : Int
deriving DecidableEq, Repr

/-- Qt's `QRect`: the inclusive corners `(x1, y1)` (top left) and `(x2, y2)`
(bottom right). -/
structure QRect where
  x1 : Int
  y1 : Int
  x2 : Int
  y2 : Int
deriving DecidableEq, Repr

namespace QRect

/-- `QRect(const QPoint &topLeft, const QPoint &bottomRight)`:
`x1(topLeft.x()), y1(topLeft.y()), x2(bottomRight.x()), y2(bottomRight.y())`. -/
def fromPoints (topLeft bottomRight : QPoint) : QRect :=
  { x1 := topLeft.xp, y1 := topLeft.yp, x2 := bottomRight.xp, y2 := bottomRight.yp }

/-- `QRect(int left, int top, int width, int height)`:
`x1(left), y1(top), x2(left + width - 1), y2(top + height - 1)`. -/
def fromXYWH (left top width height : Int) : QRect :=
  { x1 := left, y1 := top,
    x2 := wrap32 (left + width - 1), y2 := wrap32 (top + height - 1) }

/-- `QRect::left()` is `x1`. -/
def left (r : QRect) : Int := r.x1
/-- `QRect::top()` is `y1`. -/
def top (r : QRect) : Int := r.y1
/-- `QRect::right()` is `x2`. -/
def right (r : QRect) : Int := r.x2
/-- `QRect::bottom()` is `y2`. -/
def bottom (r : QRect) : Int := r.y2
/-- `QRect::x()` is `x1`. -/
def x (r : QRect) : Int := r.x1
/-- `QRect::y()` is `y1`. -/
def y (r : QRect) : Int := r.y1
/-- `QRect::width()` is `x2 - x1 + 1`. -/
def width (r : QRect) : Int := wrap32 (r.x2 - r.x1 + 1)
/-- `QRect::height()` is `y2 - y1 + 1`. -/
def height (r : QRect) : Int := wrap32 (r.y2 - r.y1 + 1)

end QRect

namespace protocol

/-- Qt's `Q_ASSERT(cond)` as used in `image.h`.  Qt defines it per build: when
`QT_NO_DEBUG` is defined (release builds) it expands to a no-op and the
condition is not checked; otherwise a false condition calls `qt_assert`, which
aborts, so the running operation produces no value.  The build switch is the
first argument. -/
def Q_ASSERT (QT_NO_DEBUG : Bool) (cond : Bool) : Option Unit :=
  if QT_NO_DEBUG then some ()
  else if cond then some () else none

/-! ## `PutImage` (image.h, lines 48-86) -/

/-- The class `PutImage`: the context id of the `Message` base class and the
private members `m_layer` (16 bit), `m_mode` (8 bit), `m_x`, `m_y`, `m_w`,
`m_h` (32 bit each) and `m_image`. -/
structure PutImage where
  ctx : Nat
  m_layer : Nat
  m_mode : Nat
  m_x : Nat
  m_y : Nat
  m_w : Nat
  m_h : Nat
  m_image : List Nat
deriving DecidableEq, Repr

namespace PutImage

/-- The constant `static const int MAX_LEN = 0xffff - 19;`. -/
def MAX_LEN : Nat := 0xffff - 19

/-- Total byte width of the fixed members, in declaration order:
`uint16_t m_layer; uint8_t m_mode; uint32_t m_x, m_y, m_w, m_h`. -/
def fixedFieldBytes : Nat := 2 + 1 + 4 + 4 + 4 + 4

/-- The constructor `PutImage(ctx, layer, mode, x, y, w, h, image)`: the members
are initialised from the arguments (narrowed to the parameter types), then the
body runs `Q_ASSERT(image.length() <= MAX_LEN)`, its only statement.  The
first argument is the build switch `QT_NO_DEBUG` that `Q_ASSERT` depends on. -/
def ctor (QT_NO_DEBUG : Bool) (ctx layer mode x y w h : Nat) (image : List Nat) :
    Option PutImage :=
  let m : PutImage :=
    { ctx := ctx % 2 ^ 8, m_layer := layer % 2 ^ 16, m_mode := mode % 2 ^ 8,
      m_x := x % 2 ^ 32, m_y := y % 2 ^ 32, m_w := w % 2 ^ 32, m_h := h % 2 ^ 32,
      m_image := image }
  (Q_ASSERT QT_NO_DEBUG (decide (image.length ≤ MAX_LEN))).map (fun _ => m)

/-- The accessor `layer()`. -/
def layer (m : PutImage) : Nat := m.m_layer
/-- The accessor `blendmode()`. -/
def blendmode (m : PutImage) : Nat := m.m_mode
/-- The accessor `x()`. -/
def x (m : PutImage) : Nat := m.m_x
/-- The accessor `y()`. -/
def y (m : PutImage) : Nat := m.m_y
/-- The accessor `width()`. -/
def width (m : PutImage) : Nat := m.m_w
/-- The accessor `height()`. -/
def height (m : PutImage) : Nat := m.m_h
/-- The accessor `image()`. -/
def image (m : PutImage) : List Nat := m.m_image

end PutImage

/-! ## `FillRect` (image.h, lines 93-126) -/

/-- The class `FillRect`: the context id of the `Message` base class and the
private members `m_layer` (16 bit), `m_blend` (8 bit), `m_x`, `m_y`, `m_w`,
`m_h`, `m_color` (32 bit each). -/
structure FillRect where
  ctx : Nat
  m_layer : Nat
  m_blend : Nat
  m_x : Nat
  m_y : Nat
  m_w : Nat
  m_h : Nat
  m_color : Nat
deriving DecidableEq, Repr

/-- Big-endian octets of a 16-bit value. -/
def toBE16 (v : Nat) : List Nat := [v / 2 ^ 8 % 2 ^ 8, v % 2 ^ 8]

/-- Big-endian octets of a 32-bit value. -/
def toBE32 (v : Nat) : List Nat :=
  [v / 2 ^ 24 % 2 ^ 8, v / 2 ^ 16 % 2 ^ 8, v / 2 ^ 8 % 2 ^ 8, v % 2 ^ 8]

/-- The octet at offset `i` of a buffer, reduced to 8 bits. -/
def octetAt (data : List Nat) (i : Nat) : Nat := data.getD i 0 % 2 ^ 8

/-- The 16-bit value stored big-endian at offset `i`. -/
def fromBE16 (data : List Nat) (i : Nat) : Nat :=
  octetAt data i * 2 ^ 8 + octetAt data (i + 1)

/-- The 32-bit value stored big-endian at offset `i`. -/
def fromBE32 (data : List Nat) (i : Nat) : Nat :=
  octetAt data i * 2 ^ 24 + octetAt data (i + 1) * 2 ^ 16
    + octetAt data (i + 2) * 2 ^ 8 + octetAt data (i + 3)

namespace FillRect

/-- The constructor `FillRect(ctx, layer, blend, x, y, w, h, color)`: every
argument is stored in its member (narrowed to the parameter type); the body is
empty. -/
def ctor (ctx layer blend x y w h color : Nat) : FillRect :=
  { ctx := ctx % 2 ^ 8, m_layer := layer % 2 ^ 16, m_blend := blend % 2 ^ 8,
    m_x := x % 2 ^ 32, m_y := y % 2 ^ 32, m_w := w % 2 ^ 32, m_h := h % 2 ^ 32,
    m_color := color % 2 ^ 32 }

/-- The accessor `layer()`. -/
def layer (m : FillRect) : Nat := m.m_layer
/-- The accessor `blend()`. -/
def blend (m : FillRect) : Nat := m.m_blend
/-- The accessor `x()`. -/
def x (m : FillRect) : Nat := m.m_x
/-- The accessor `y()`. -/
def y (m : FillRect) : Nat := m.m_y
/-- The accessor `width()`. -/
def width (m : FillRect) : Nat := m.m_w
/-- The accessor `height()`. -/
def height (m : FillRect) : Nat := m.m_h
/-- The accessor `color()`. -/
def color (m : FillRect) : Nat := m.m_color

/-- Modelled from the spec: `FillRect::payloadLength()` is declared in `image.h`
but defined in `image.cpp`, which is not among the sources.  The spec gives
FillRect the fixed fields "layer id, blend mode, rectangle (x,y,w,h), packed
32-bit color" and "no variable-length payload"; with the declared member widths
that is `2 + 1 + 4*4 + 4` octets. -/
def payloadLength (_m : FillRect) : Nat := 2 + 1 + 4 * 4 + 4

/-- Modelled from the spec: `FillRect::serializePayload(uchar *data)` is declared
in `image.h` but defined in `image.cpp`, which is not among the sources.  The
spec lays the fields out in the order "layer id, blend mode, rectangle
(x,y,w,h), packed 32-bit color", "in big-endian byte order for all multi-byte
integers".  The result is the list of octets written to `data`. -/
def serializePayload (m : FillRect) : List Nat :=
  toBE16 m.m_layer ++ [m.m_blend % 2 ^ 8] ++ toBE32 m.m_x ++ toBE32 m.m_y
    ++ toBE32 m.m_w ++ toBE32 m.m_h ++ toBE32 m.m_color

/-- Modelled from the spec: `FillRect::deserialize(ctx, data, len)` is declared in
`image.h` but defined in `image.cpp`, which is not among the sources.  Per the
spec a payload length inconsistent with the fixed fields is malformed (no
message, the null pointer of the source), the decoder reads only the declared
`len` octets of `data`, and the fields are read back in the layout of
`serializePayload`. -/
def deserialize (ctx : Nat) (data : List Nat) (len : Nat) : Option FillRect :=
  if len ≠ 2 + 1 + 4 * 4 + 4 then none
  else if data.length < len then none
  else some (ctor ctx (fromBE16 data 0) (octetAt data 2) (fromBE32 data 3)
    (fromBE32 data 7) (fromBE32 data 11) (fromBE32 data 15) (fromBE32 data 19))

end FillRect

/-! ## `MoveRegion` (image.h, lines 148-221) -/

/-- The class `MoveRegion`: the context id of the `Message` base class and the
private members `m_layer` (16 bit), `m_bx` .. `m_bh`, `m_x1` .. `m_y4` (signed,
32 bit each) and `m_mask`. -/
structure MoveRegion where
  ctx : Nat
  m_layer : Nat
  m_bx : Int
  m_by : Int
  m_bw : Int
  m_bh : Int
  m_x1 : Int
  m_y1 : Int
  m_x2 : Int
  m_y2 : Int
  m_x3 : Int
  m_y3 : Int
  m_x4 : Int
  m_y4 : Int
  m_mask : List Nat
deriving DecidableEq, Repr

namespace MoveRegion

/-- The constant `static const int MAX_LEN = 0xffff - 50;`. -/
def MAX_LEN : Nat := 0xffff - 50

/-- Total byte width of the fixed members, in declaration order:
`uint16_t m_layer; int32_t m_bx, m_by, m_bw, m_bh;
int32_t m_x1, m_y1, m_x2, m_y2, m_x3, m_y3, m_x4, m_y4`. -/
def fixedFieldBytes : Nat := 2 + (4 + 4 + 4 + 4) + (4 + 4 + 4 + 4 + 4 + 4 + 4 + 4)

/-- The constructor
`MoveRegion(ctx, layer, bx, by, bw, bh, x1, y1, x2, y2, x3, y3, x4, y4, mask)`:
every argument is stored in its member (narrowed to the parameter type); the
body is empty, so construction always yields a message. -/
def ctor (ctx layer : Nat) (bx by_ bw bh x1 y1 x2 y2 x3 y3 x4 y4 : Int)
    (mask : List Nat) : MoveRegion :=
  { ctx := ctx % 2 ^ 8, m_layer := layer % 2 ^ 16,
    m_bx := wrap32 bx, m_by := wrap32 by_, m_bw := wrap32 bw, m_bh := wrap32 bh,
    m_x1 := wrap32 x1, m_y1 := wrap32 y1, m_x2 := wrap32 x2, m_y2 := wrap32 y2,
    m_x3 := wrap32 x3, m_y3 := wrap32 y3, m_x4 := wrap32 x4, m_y4 := wrap32 y4,
    m_mask := mask }

/-- The accessor `layer()`. -/
def layer (m : MoveRegion) : Nat := m.m_layer
/-- The accessor `bx()`. -/
def bx (m : MoveRegion) : Int := m.m_bx
/-- The accessor `by()`. -/
def by_ (m : MoveRegion) : Int := m.m_by
/-- The accessor `bw()`. -/
def bw (m : MoveRegion) : Int := m.m_bw
/-- The accessor `bh()`. -/
def bh (m : MoveRegion) : Int := m.m_bh
/-- The accessor `x1()`. -/
def x1 (m : MoveRegion) : Int := m.m_x1
/-- The accessor `y1()`. -/
def y1 (m : MoveRegion) : Int := m.m_y1
/-- The accessor `x2()`. -/
def x2 (m : MoveRegion) : Int := m.m_x2
/-- The accessor `y2()`. -/
def y2 (m : MoveRegion) : Int := m.m_y2
/-- The accessor `x3()`. -/
def x3 (m : MoveRegion) : Int := m.m_x3
/-- The accessor `y3()`. -/
def y3 (m : MoveRegion) : Int := m.m_y3
/-- The accessor `x4()`. -/
def x4 (m : MoveRegion) : Int := m.m_x4
/-- The accessor `y4()`. -/
def y4 (m : MoveRegion) : Int := m.m_y4
/-- The accessor `mask()`. -/
def mask (m : MoveRegion) : List Nat := m.m_mask

/-- The method `sourceBounds()`: `QRect(bx(), by(), bw(), bh())`. -/
def sourceBounds (m : MoveRegion) : QRect :=
  QRect.fromXYWH m.bx m.by_ m.bw m.bh

/-- The method `targetBounds()`:
`left = qMin(qMin(x1(), x2()), qMin(x3(), x4()))`, `right` the same with `qMax`,
`top` and `bottom` likewise over `y1()` .. `y4()`, and the result is
`QRect(QPoint(left, top), QPoint(right, bottom))`. -/
def targetBounds (m : MoveRegion) : QRect :=
  let left := qMin (qMin m.x1 m.x2) (qMin m.x3 m.x4)
  let right := qMax (qMax m.x1 m.x2) (qMax m.x3 m.x4)
  let top := qMin (qMin m.y1 m.y2) (qMin m.y3 m.y4)
  let bottom := qMax (qMax m.y1 m.y2) (qMax m.y3 m.y4)
  QRect.fromPoints ⟨left, top⟩ ⟨right, bottom⟩

/-- The four destination vertices `(x1,y1)`, .., `(x4,y4)` in declaration order. -/
def vertices (m : MoveRegion) : List (Int × Int) :=
  [(m.x1, m.y1), (m.x2, m.y2), (m.x3, m.y3), (m.x4, m.y4)]

end MoveRegion

end protocol

/-! ## `User` flags (user.h) -/

/-- The enumeration `User::State`. -/
inductive User.State where
  | Init
  | Verified
  | Login
  | LoginAuth
  | Active
deriving DecidableEq, Repr

/-- The scalar members of `struct User`.  The socket, the event mask, the
session map, the queue, the buffers, the seed, the timestamp and the name are
of types declared outside the sources and play no part in the flag accessors. -/
structure User where
  id : Nat
  state : User.State
  layer : Nat
  syncing : Nat
  isAdmin : Bool
  c_acks : Bool
  ext_deflate : Bool
  ext_chat : Bool
  ext_palette : Bool
  level : Nat
  strokes : Nat
deriving DecidableEq, Repr

/-- Modelled from the spec: the protocol's flag-bit assignment lives in a header
that is not among the sources.  The spec speaks of "a single octet of capability
flags and a separate octet of extension flags (deflate, chat, palette)" and of
"negotiated bits"; each flag is therefore one bit position of an octet, kept
here as a parameter: `AckFeedback` in the capability octet, `Deflate`, `Chat`
and `Palette` in the extension octet. -/
structure ProtocolFlags where
  AckFeedback : Fin 8
  Deflate : Fin 8
  Chat : Fin 8
  Palette : Fin 8
deriving DecidableEq, Repr

namespace ProtocolFlags

/-- The three extension flags occupy three different bits. -/
def distinct (pf : ProtocolFlags) : Prop :=
  pf.Deflate ≠ pf.Chat ∧ pf.Deflate ≠ pf.Palette ∧ pf.Chat ≠ pf.Palette

instance (pf : ProtocolFlags) : Decidable pf.distinct := by
  unfold distinct; infer_instance

/-- The octet holding exactly the defined capability bits. -/
def capabilityMask (pf : ProtocolFlags) : Nat := 2 ^ pf.AckFeedback.val

/-- The octet holding exactly the defined extension bits. -/
def extensionMask (pf : ProtocolFlags) : Nat :=
  2 ^ pf.Deflate.val ||| 2 ^ pf.Chat.val ||| 2 ^ pf.Palette.val

end ProtocolFlags

namespace User

/-- Modelled from the spec: `User::getCapabilities()` is declared in `user.h` but
defined in `user.cpp`, which is not among the sources.  Per the spec it encodes
the negotiated capability flags (the acks-only mode `c_acks`) as one octet of
bit flags "for use with the network protocol". -/
def getCapabilities (pf : ProtocolFlags) (u : User) : Nat :=
  if u.c_acks then 2 ^ pf.AckFeedback.val else 0

/-- Modelled from the spec: `User::setCapabilities(flags)` is declared in `user.h`
but defined in `user.cpp`, which is not among the sources.  Per the spec it
decodes the capability octet into the flag set: `c_acks` becomes whether its
bit is set in `flags`. -/
def setCapabilities (pf : ProtocolFlags) (flags : Nat) (u : User) : User :=
  { u with c_acks := flags.testBit pf.AckFeedback.val }

/-- Modelled from the spec: `User::getExtensions()` is declared in `user.h` but
defined in `user.cpp`, which is not among the sources.  Per the spec it encodes
the extension flags (deflate, chat, palette) as one octet of bit flags. -/
def getExtensions (pf : ProtocolFlags) (u : User) : Nat :=
  (if u.ext_deflate then 2 ^ pf.Deflate.val else 0)
    ||| (if u.ext_chat then 2 ^ pf.Chat.val else 0)
    ||| (if u.ext_palette then 2 ^ pf.Palette.val else 0)

/-- Modelled from the spec: `User::setExtensions(flags)` is declared in `user.h`
but defined in `user.cpp`, which is not among the sources.  Per the spec it
decodes the extension octet into the flag set: each of `ext_deflate`,
`ext_chat`, `ext_palette` becomes whether its bit is set in `flags`. -/
def setExtensions (pf : ProtocolFlags) (flags : Nat) (u : User) : User :=
  { u with
    ext_deflate := flags.testBit pf.Deflate.val
    ext_chat := flags.testBit pf.Chat.val
    ext_palette := flags.testBit pf.Palette.val }

end User

/-! ## `Network` constants (network.h) -/

namespace Network

namespace IPv6

/-- The constant `const char Localhost[] = "::1";`. -/
def Localhost : String := "::1"

/-- The constant `const char Unspecified[] = "::";`. -/
def Unspecified : String := "::"

/-- The constant `const uint AddrLength = 39;`, documented
"Maximum length of IPv6 address, e.g. ffff:ffff:ffff:ffff:ffff:ffff:ffff:ffff". -/
def AddrLength : Nat := 39

/-- The example address of the doc comment of `AddrLength`. -/
def AddrLengthExample : String := "ffff:ffff:ffff:ffff:ffff:ffff:ffff:ffff"

end IPv6

namespace IPv4

/-- The constant `const char Localhost[] = "127.0.0.1";`. -/
def Localhost : String := "127.0.0.1"

/-- The constant `const uint LocalhostAddress = 0x7f000001;`. -/
def LocalhostAddress : Nat := 0x7f000001

/-- The constant `const char Unspecified[] = "0.0.0.0";`. -/
def Unspecified : String := "0.0.0.0"

/-- The constant `const uint UnspecifiedAddress = 0x00000000;`. -/
def UnspecifiedAddress : Nat := 0x00000000

/-- The constant `const uint AddrLength = 16;`, documented
"Maximum length of IPv4 address, 123.456.789.012". -/
def AddrLength : Nat := 16

/-- The example address of the doc comment of `AddrLength`. -/
def AddrLengthExample : String := "123.456.789.012"

/-- The constant `const char Broadcast[] = "255.255.255.255";`. -/
def Broadcast : String := "255.255.255.255"

/-- The constant `const uint BroadcastAddress = 0xffffffff;`. -/
def BroadcastAddress : Nat := 0xffffffff

/-- The constant `const uint HostMask8 = 0xff000000;`, documented `255.0.0.0 = /8`. -/
def HostMask8 : Nat := 0xff000000

/-- The constant `const uint HostMask16 = 0xffff0000;`, documented `255.255.0.0 = /16`. -/
def HostMask16 : Nat := 0xffff0000

/-- The constant `const uint HostMask24 = 0xffffff00;`, documented `255.255.255.0 = /24`. -/
def HostMask24 : Nat := 0xffffff00

/-- The constant `const uint HostMask32 = 0xffffffff;`, documented
`255.255.255.255 = /32`. -/
def HostMask32 : Nat := 0xffffffff

end IPv4

/-- The constant `const uint SuperUser_Port = 1023;`. -/
def SuperUser_Port : Nat := 1023

/-- The constant `const uint AddrLength = IPv6::AddrLength;`. -/
def AddrLength : Nat := IPv6.AddrLength

/-- The constant `const uint PortLength = 5;`. -/
def PortLength : Nat := 5

/-- The constant `const uint PortUpperBound = 65535;`. -/
def PortUpperBound : Nat := 65535

/-- The constant `const uint PortLowerBound = 0;`. -/
def PortLowerBound : Nat := 0

/-! ### Vocabulary for stating the properties of the constants -/

/-- Big-endian packing of the dotted quad `a.b.c.d` into 32 bits. -/
def packQuad (a b c d : Nat) : Nat := a * 2 ^ 24 + b * 2 ^ 16 + c * 2 ^ 8 + d

/-- Reads decimal octets separated by dots: `done` holds the finished numbers,
`cur` the digits of the number being read. -/
def readQuad : List Char → List Nat → Option Nat → Option (List Nat)
  | [], done, some n => some (done ++ [n])
  | [], _, none => none
  | c :: cs, done, cur =>
    if c = '.' then
      match cur with
      | some n => readQuad cs (done ++ [n]) none
      | none => none
    else if c.isDigit then
      readQuad cs done (some (cur.getD 0 * 10 + (c.toNat - 48)))
    else none

/-- The 32-bit address a dotted-quad string denotes, when it is one. -/
def parseDottedQuad (s : String) : Option Nat :=
  match readQuad s.toList [] none with
  | some [a, b, c, d] =>
    if a < 256 ∧ b < 256 ∧ c < 256 ∧ d < 256 then some (packQuad a b c d) else none
  | _ => none

/-- A 32-bit value has exactly its `n` most significant bits set: bit `i` (bit 0
least significant) is set precisely when `32 - n ≤ i`, for every `i < 32`, and
no bit above is set. -/
def topBitsSet (n v : Nat) : Prop :=
  v < 2 ^ 32 ∧ ∀ i, i < 32 → (v.testBit i = true ↔ 32 - n ≤ i)

instance (n v : Nat) : Decidable (topBitsSet n v) := by
  unfold topBitsSet; infer_instance

end Network

/-! ## Lemmas on `qMin` / `qMax` -/

theorem qMin_eq_min (a b : Int) : qMin a b = min a b := by
  unfold qMin; split <;> omega

theorem qMax_eq_max (a b : Int) : qMax a b = max a b := by
  unfold qMax; split <;> omega

theorem le_qMin4_iff (z a b c d : Int) :
    z ≤ qMin (qMin a b) (qMin c d) ↔ ∀ v ∈ [a, b, c, d], z ≤ v := by
  simp only [qMin_eq_min, List.mem_cons, List.mem_singleton, List.not_mem_nil, or_false,
    forall_eq_or_imp, forall_eq]
  omega

theorem qMax4_le_iff (z a b c d : Int) :
    qMax (qMax a b) (qMax c d) ≤ z ↔ ∀ v ∈ [a, b, c, d], v ≤ z := by
  simp only [qMax_eq_max, List.mem_cons, List.mem_singleton, List.not_mem_nil, or_false,
    forall_eq_or_imp, forall_eq]
  omega

theorem qMin4_mem (a b c d : Int) : qMin (qMin a b) (qMin c d) ∈ [a, b, c, d] := by
  simp only [qMin_eq_min, List.mem_cons, List.mem_singleton, List.not_mem_nil, or_false]
  omega

theorem qMax4_mem (a b c d : Int) : qMax (qMax a b) (qMax c d) ∈ [a, b, c, d] := by
  simp only [qMax_eq_max, List.mem_cons, List.mem_singleton, List.not_mem_nil, or_false]
  omega

theorem qMin4_perm {a b c d a' b' c' d' : Int} (h : [a', b', c', d'].Perm [a, b, c, d]) :
    qMin (qMin a' b') (qMin c' d') = qMin (qMin a b) (qMin c d) := by
  apply le_antisymm
  · exact (le_qMin4_iff _ a b c d).2
      (fun v hv => (le_qMin4_iff _ a' b' c' d').1 le_rfl v (h.mem_iff.2 hv))
  · exact (le_qMin4_iff _ a' b' c' d').2
      (fun v hv => (le_qMin4_iff _ a b c d).1 le_rfl v (h.mem_iff.1 hv))

theorem qMax4_perm {a b c d a' b' c' d' : Int} (h : [a', b', c', d'].Perm [a, b, c, d]) :
    qMax (qMax a' b') (qMax c' d') = qMax (qMax a b) (qMax c d) := by
  apply le_antisymm
  · exact (qMax4_le_iff _ a' b' c' d').2
      (fun v hv => (qMax4_le_iff _ a b c d).1 le_rfl v (h.mem_iff.1 hv))
  · exact (qMax4_le_iff _ a b c d).2
      (fun v hv => (qMax4_le_iff _ a' b' c' d').1 le_rfl v (h.mem_iff.2 hv))

/-! ## `MoveRegion::targetBounds` -/

namespace protocol

/-- C1: for every MoveRegion message, `targetBounds()` is the per-axis bounding
box of the four destination vertices: its left edge is the minimum of
`x1, x2, x3, x4`, its right edge their maximum, its top edge the minimum of
`y1, y2, y3, y4` and its bottom edge their maximum.  Each edge is also
characterised as an extremum: it is one of the four coordinates and bounds all
four. -/
theorem MoveRegion.targetBounds_bounding_box (m : MoveRegion) :
    (m.targetBounds.left = min (min m.x1 m.x2) (min m.x3 m.x4)
      ∧ m.targetBounds.right = max (max m.x1 m.x2) (max m.x3 m.x4)
      ∧ m.targetBounds.top = min (min m.y1 m.y2) (min m.y3 m.y4)
      ∧ m.targetBounds.bottom = max (max m.y1 m.y2) (max m.y3 m.y4))
    ∧ (m.targetBounds.left ∈ [m.x1, m.x2, m.x3, m.x4]
      ∧ ∀ v ∈ [m.x1, m.x2, m.x3, m.x4], m.targetBounds.left ≤ v)
    ∧ (m.targetBounds.right ∈ [m.x1, m.x2, m.x3, m.x4]
      ∧ ∀ v ∈ [m.x1, m.x2, m.x3, m.x4], v ≤ m.targetBounds.right)
    ∧ (m.targetBounds.top ∈ [m.y1, m.y2, m.y3, m.y4]
      ∧ ∀ v ∈ [m.y1, m.y2, m.y3, m.y4], m.targetBounds.top ≤ v)
    ∧ (m.targetBounds.bottom ∈ [m.y1, m.y2, m.y3, m.y4]
      ∧ ∀ v ∈ [m.y1, m.y2, m.y3, m.y4], v ≤ m.targetBounds.bottom) := by
  refine ⟨⟨?_, ?_, ?_, ?_⟩, ⟨?_, ?_⟩, ⟨?_, ?_⟩, ⟨?_, ?_⟩, ⟨?_, ?_⟩⟩
  · simp only [MoveRegion.targetBounds, QRect.fromPoints, QRect.left, qMin_eq_min]
  · simp only [MoveRegion.targetBounds, QRect.fromPoints, QRect.right, qMax_eq_max]
  · simp only [MoveRegion.targetBounds, QRect.fromPoints, QRect.top, qMin_eq_min]
  · simp only [MoveRegion.targetBounds, QRect.fromPoints, QRect.bottom, qMax_eq_max]
  · exact qMin4_mem _ _ _ _
  · exact (le_qMin4_iff _ _ _ _ _).1 le_rfl
  · exact qMax4_mem _ _ _ _
  · exact (qMax4_le_iff _ _ _ _ _).1 le_rfl
  · exact qMin4_mem _ _ _ _
  · exact (le_qMin4_iff _ _ _ _ _).1 le_rfl
  · exact qMax4_mem _ _ _ _
  · exact (qMax4_le_iff _ _ _ _ _).1 le_rfl

/-- C2, as stated, fails: for the MoveRegion with destination vertices
`(0,0), (10,0), (10,10), (0,10)`, `targetBounds()` is not the rectangle
`QRect(0, 0, 10, 10)` of the x, y, width, height form that `sourceBounds()`
uses; its width and height are 11, not 10. -/
theorem MoveRegion.targetBounds_example_not_xywh_10 :
    (MoveRegion.ctor 0 0 0 0 0 0 0 0 10 0 10 10 0 10 []).targetBounds
        ≠ QRect.fromXYWH 0 0 10 10
    ∧ (MoveRegion.ctor 0 0 0 0 0 0 0 0 10 0 10 10 0 10 []).targetBounds.width ≠ 10
    ∧ (MoveRegion.ctor 0 0 0 0 0 0 0 0 10 0 10 10 0 10 []).targetBounds.height ≠ 10
    ∧ (MoveRegion.ctor 0 0 0 0 10 10 0 0 10 0 10 10 0 10 []).sourceBounds
        = QRect.fromXYWH 0 0 10 10
    ∧ (MoveRegion.ctor 0 0 0 0 10 10 0 0 10 0 10 10 0 10 []).targetBounds
        ≠ (MoveRegion.ctor 0 0 0 0 10 10 0 0 10 0 10 10 0 10 []).sourceBounds := by
  decide

/-- C2, amended: every MoveRegion constructed with the destination vertices
`(0,0), (10,0), (10,10), (0,10)` has `targetBounds()` equal to
`QRect(QPoint(0,0), QPoint(10,10))`: left 0, top 0, right 10, bottom 10, both
corners inclusive, which in x, y, width, height form is `QRect(0, 0, 11, 11)`. -/
theorem MoveRegion.targetBounds_example (ctx layer : Nat) (bx by_ bw bh : Int)
    (mask : List Nat) :
    let m := MoveRegion.ctor ctx layer bx by_ bw bh 0 0 10 0 10 10 0 10 mask
    m.targetBounds = QRect.fromPoints ⟨0, 0⟩ ⟨10, 10⟩
    ∧ m.targetBounds = QRect.fromXYWH 0 0 11 11
    ∧ m.targetBounds.left = 0 ∧ m.targetBounds.top = 0
    ∧ m.targetBounds.right = 10 ∧ m.targetBounds.bottom = 10
    ∧ m.targetBounds.x = 0 ∧ m.targetBounds.y = 0
    ∧ m.targetBounds.width = 11 ∧ m.targetBounds.height = 11 := by
  intro m
  have h0 : wrap32 0 = 0 := by decide
  have h10 : wrap32 10 = 10 := by decide
  have ht : m.targetBounds = QRect.fromPoints ⟨0, 0⟩ ⟨10, 10⟩ := by
    simp only [m, MoveRegion.targetBounds, MoveRegion.ctor, MoveRegion.x1, MoveRegion.x2,
      MoveRegion.x3, MoveRegion.x4, MoveRegion.y1, MoveRegion.y2, MoveRegion.y3,
      MoveRegion.y4, h0, h10]
    decide
  rw [ht]
  decide

/-- C10: `targetBounds()` does not depend on the order of the destination
vertices: two MoveRegion messages whose four `(x, y)` vertex pairs are
permutations of each other have the same `targetBounds()`; that rectangle has
left ≤ right and top ≤ bottom, and it contains each of the four vertices (each
vertex lies between the left and right edges and between the top and bottom
edges, edges included). -/
theorem MoveRegion.targetBounds_perm (m m' : MoveRegion)
    (h : m'.vertices.Perm m.vertices) :
    m'.targetBounds = m.targetBounds
    ∧ m.targetBounds.left ≤ m.targetBounds.right
    ∧ m.targetBounds.top ≤ m.targetBounds.bottom
    ∧ ∀ v ∈ m.vertices,
        m.targetBounds.left ≤ v.1 ∧ v.1 ≤ m.targetBounds.right
          ∧ m.targetBounds.top ≤ v.2 ∧ v.2 ≤ m.targetBounds.bottom := by
  have hx : [m'.x1, m'.x2, m'.x3, m'.x4].Perm [m.x1, m.x2, m.x3, m.x4] := h.map Prod.fst
  have hy : [m'.y1, m'.y2, m'.y3, m'.y4].Perm [m.y1, m.y2, m.y3, m.y4] := h.map Prod.snd
  have hl := (le_qMin4_iff (qMin (qMin m.x1 m.x2) (qMin m.x3 m.x4)) m.x1 m.x2 m.x3 m.x4).1 le_rfl
  have hr := (qMax4_le_iff (qMax (qMax m.x1 m.x2) (qMax m.x3 m.x4)) m.x1 m.x2 m.x3 m.x4).1 le_rfl
  have ht := (le_qMin4_iff (qMin (qMin m.y1 m.y2) (qMin m.y3 m.y4)) m.y1 m.y2 m.y3 m.y4).1 le_rfl
  have hb := (qMax4_le_iff (qMax (qMax m.y1 m.y2) (qMax m.y3 m.y4)) m.y1 m.y2 m.y3 m.y4).1 le_rfl
  have hbox : ∀ v ∈ m.vertices,
      m.targetBounds.left ≤ v.1 ∧ v.1 ≤ m.targetBounds.right
        ∧ m.targetBounds.top ≤ v.2 ∧ v.2 ≤ m.targetBounds.bottom := by
    intro v hv
    have hv1 : v.1 ∈ [m.x1, m.x2, m.x3, m.x4] := List.mem_map_of_mem Prod.fst hv
    have hv2 : v.2 ∈ [m.y1, m.y2, m.y3, m.y4] := List.mem_map_of_mem Prod.snd hv
    exact ⟨hl _ hv1, hr _ hv1, ht _ hv2, hb _ hv2⟩
  refine ⟨?_, ?_, ?_, ?_⟩
  · simp only [MoveRegion.targetBounds, qMin4_perm hx, qMax4_perm hx, qMin4_perm hy,
      qMax4_perm hy]
  · exact le_trans (hl m.x1 (by simp)) (hr m.x1 (by simp))
  · exact le_trans (ht m.y1 (by simp)) (hb m.y1 (by simp))
  · exact hbox

/-- Witness for C10: the square `(0,0), (10,0), (10,10), (0,10)` and the same
vertices listed in the order `(10,10), (0,0), (0,10), (10,0)`. -/
theorem MoveRegion.targetBounds_perm_witness :
    (MoveRegion.ctor 1 1 0 0 5 5 10 10 0 0 0 10 10 0 []).vertices.Perm
        (MoveRegion.ctor 1 1 0 0 5 5 0 0 10 0 10 10 0 10 []).vertices
    ∧ (MoveRegion.ctor 1 1 0 0 5 5 10 10 0 0 0 10 10 0 []).targetBounds
        = (MoveRegion.ctor 1 1 0 0 5 5 0 0 10 0 10 10 0 10 []).targetBounds :=
  ⟨by decide,
   (MoveRegion.targetBounds_perm (MoveRegion.ctor 1 1 0 0 5 5 0 0 10 0 10 10 0 10 [])
      (MoveRegion.ctor 1 1 0 0 5 5 10 10 0 0 0 10 10 0 []) (by decide)).1⟩

end protocol

/-! ## Length limits of `PutImage` and `MoveRegion` -/

namespace protocol

/-- C4 at the failing input: the MoveRegion constructor has no length check, so
constructing a MoveRegion with a mask of `MAX_LEN + 1 = 65486` octets yields a
message whose `mask()` has 65486 octets, more than `MoveRegion::MAX_LEN`. -/
theorem MoveRegion.ctor_accepts_long_mask :
    (MoveRegion.ctor 0 0 0 0 0 0 0 0 0 0 0 0 0 0 (List.replicate 65486 0)).mask.length
        = 65486
    ∧ MoveRegion.MAX_LEN < 65486
    ∧ ¬ ((MoveRegion.ctor 0 0 0 0 0 0 0 0 0 0 0 0 0 0
          (List.replicate 65486 0)).mask.length ≤ MoveRegion.MAX_LEN) := by
  have hlen : (MoveRegion.ctor 0 0 0 0 0 0 0 0 0 0 0 0 0 0
      (List.replicate 65486 0)).mask.length = 65486 := by
    simp only [MoveRegion.ctor, MoveRegion.mask, List.length_replicate]
  refine ⟨hlen, by decide, ?_⟩
  rw [hlen]
  decide

/-- C5: each type's `MAX_LEN` is `0xFFFF` minus the total byte width of the
type's fixed fields: `PutImage::MAX_LEN = 65516 = 0xFFFF - 19` with
`19 = 2 + 1 + 4*4`, and `MoveRegion::MAX_LEN = 65485 = 0xFFFF - 50` with
`50 = 2 + 4*4 + 8*4`; hence a variable part of at most `MAX_LEN` octets
together with the fixed fields is at most `0xFFFF` octets and fits the 16-bit
length field. -/
theorem MAX_LEN_fixed_fields (n : Nat) :
    PutImage.MAX_LEN = 65516
    ∧ PutImage.MAX_LEN = 0xFFFF - PutImage.fixedFieldBytes
    ∧ PutImage.fixedFieldBytes = 19
    ∧ PutImage.fixedFieldBytes = 2 + 1 + 4 * 4
    ∧ MoveRegion.MAX_LEN = 65485
    ∧ MoveRegion.MAX_LEN = 0xFFFF - MoveRegion.fixedFieldBytes
    ∧ MoveRegion.fixedFieldBytes = 50
    ∧ MoveRegion.fixedFieldBytes = 2 + 4 * 4 + 8 * 4
    ∧ (n ≤ PutImage.MAX_LEN →
        PutImage.fixedFieldBytes + n ≤ 0xFFFF ∧ PutImage.fixedFieldBytes + n < 2 ^ 16)
    ∧ (n ≤ MoveRegion.MAX_LEN →
        MoveRegion.fixedFieldBytes + n ≤ 0xFFFF ∧ MoveRegion.fixedFieldBytes + n < 2 ^ 16)
    ∧ PutImage.fixedFieldBytes + PutImage.MAX_LEN = 0xFFFF
    ∧ MoveRegion.fixedFieldBytes + MoveRegion.MAX_LEN = 0xFFFF := by
  refine ⟨by decide, by decide, by decide, by decide, by decide, by decide, by decide,
    by decide, ?_, ?_, by decide, by decide⟩
  · intro hn
    simp only [PutImage.MAX_LEN, PutImage.fixedFieldBytes] at *
    omega
  · intro hn
    simp only [MoveRegion.MAX_LEN, MoveRegion.fixedFieldBytes] at *
    omega

/-- Witness for C5: variable parts of exactly `MAX_LEN` octets. -/
theorem MAX_LEN_fixed_fields_witness :
    (65516 ≤ PutImage.MAX_LEN ∧ PutImage.fixedFieldBytes + 65516 ≤ 0xFFFF)
    ∧ (65485 ≤ MoveRegion.MAX_LEN ∧ MoveRegion.fixedFieldBytes + 65485 ≤ 0xFFFF) :=
  ⟨⟨by decide, ((MAX_LEN_fixed_fields 65516).2.2.2.2.2.2.2.2.1 (by decide)).1⟩,
   ⟨by decide, ((MAX_LEN_fixed_fields 65485).2.2.2.2.2.2.2.2.2.1 (by decide)).1⟩⟩

end protocol

/-! ## `FillRect` payload round trip -/

namespace protocol

theorem FillRect.roundtrip_of_inRange (m : FillRect)
    (h1 : m.m_layer < 2 ^ 16) (h2 : m.m_blend < 2 ^ 8) (h3 : m.m_x < 2 ^ 32)
    (h4 : m.m_y < 2 ^ 32) (h5 : m.m_w < 2 ^ 32) (h6 : m.m_h < 2 ^ 32)
    (h7 : m.m_color < 2 ^ 32) (h0 : m.ctx < 2 ^ 8) :
    FillRect.deserialize m.ctx (FillRect.serializePayload m) (FillRect.payloadLength m)
      = some m := by
  obtain ⟨c, l, b, x, y, w, h, col⟩ := m
  simp only at h0 h1 h2 h3 h4 h5 h6 h7
  simp only [FillRect.deserialize, FillRect.serializePayload, FillRect.payloadLength,
    FillRect.ctor, toBE16, toBE32, fromBE16, fromBE32, octetAt, List.cons_append,
    List.nil_append, List.getD_cons_zero, List.getD_cons_succ, List.length_cons,
    List.length_nil, List.append_assoc]
  simp only [Nat.reduceAdd, Nat.reduceMul, ne_eq, not_true_eq_false, if_false,
    Nat.lt_irrefl, Option.some.injEq, FillRect.mk.injEq]
  refine ⟨?_, ?_, ?_, ?_, ?_, ?_, ?_, ?_⟩ <;> omega

/-- C6: for every FillRect `m` built from an 8-bit `ctx`, a 16-bit `layer`, an
8-bit `blend` and 32-bit `x`, `y`, `w`, `h`, `color`, the payload written by
`serializePayload(m)` has `payloadLength(m)` octets, and `FillRect::deserialize`
applied to it with `m`'s context id yields a FillRect equal to `m`, whose
`layer()`, `blend()`, `x()`, `y()`, `width()`, `height()` and `color()` are the
values `m` was built from. -/
theorem FillRect.deserialize_serializePayload (ctx layer blend x y w h color : Nat)
    (hctx : ctx < 2 ^ 8) (hlayer : layer < 2 ^ 16) (hblend : blend < 2 ^ 8)
    (hx : x < 2 ^ 32) (hy : y < 2 ^ 32) (hw : w < 2 ^ 32) (hh : h < 2 ^ 32)
    (hcolor : color < 2 ^ 32) :
    (FillRect.serializePayload (FillRect.ctor ctx layer blend x y w h color)).length
      = FillRect.payloadLength (FillRect.ctor ctx layer blend x y w h color)
    ∧ (FillRect.ctor ctx layer blend x y w h color).ctx = ctx
    ∧ ∃ d, FillRect.deserialize ctx
          (FillRect.serializePayload (FillRect.ctor ctx layer blend x y w h color))
          (FillRect.payloadLength (FillRect.ctor ctx layer blend x y w h color)) = some d
        ∧ d = FillRect.ctor ctx layer blend x y w h color
        ∧ d.layer = layer ∧ d.blend = blend ∧ d.x = x ∧ d.y = y
        ∧ d.width = w ∧ d.height = h ∧ d.color = color := by
  have hm : FillRect.ctor ctx layer blend x y w h color
      = { ctx := ctx, m_layer := layer, m_blend := blend, m_x := x, m_y := y,
          m_w := w, m_h := h, m_color := color } := by
    simp only [FillRect.ctor, Nat.mod_eq_of_lt hctx, Nat.mod_eq_of_lt hlayer,
      Nat.mod_eq_of_lt hblend, Nat.mod_eq_of_lt hx, Nat.mod_eq_of_lt hy,
      Nat.mod_eq_of_lt hw, Nat.mod_eq_of_lt hh, Nat.mod_eq_of_lt hcolor]
  rw [hm]
  refine ⟨?_, rfl, _, FillRect.roundtrip_of_inRange _ hlayer hblend hx hy hw hh
    hcolor hctx, rfl, rfl, rfl, rfl, rfl, rfl, rfl, rfl⟩
  simp only [FillRect.serializePayload, FillRect.payloadLength, toBE16, toBE32,
    List.cons_append, List.nil_append, List.length_cons, List.length_nil]

/-- Witness for C6: `FillRect(ctx=3, layer=1, blend=0, x=10, y=10, w=100, h=50,
color=0xFF0000FF)` is decoded from its payload with `layer() == 1`,
`x() == 10`, `width() == 100` and `color() == 0xFF0000FF`. -/
theorem FillRect.deserialize_serializePayload_witness :
    ∃ d, FillRect.deserialize 3
          (FillRect.serializePayload (FillRect.ctor 3 1 0 10 10 100 50 0xFF0000FF))
          (FillRect.payloadLength (FillRect.ctor 3 1 0 10 10 100 50 0xFF0000FF)) = some d
        ∧ d.layer = 1 ∧ d.x = 10 ∧ d.width = 100 ∧ d.color = 0xFF0000FF := by
  obtain ⟨d, hd, _, hl, _, hx, _, hw, _, hc⟩ :=
    (FillRect.deserialize_serializePayload 3 1 0 10 10 100 50 0xFF0000FF
      (by decide) (by decide) (by decide) (by decide) (by decide) (by decide)
      (by decide) (by decide)).2.2
  exact ⟨d, hd, hl, hx, hw, hc⟩

end protocol

/-! ## `User` flag accessors -/

theorem testBit_flag (b : Bool) (n i : Nat) :
    (if b = true then 2 ^ n else 0).testBit i = (b && decide (n = i)) := by
  cases b <;> simp [Nat.testBit_two_pow]

theorem testBit_of_and_mask {f mask : Nat} (hf : f &&& mask = f) (i : Nat)
    (hi : f.testBit i = true) : mask.testBit i = true := by
  have h := congrArg (fun v => Nat.testBit v i) hf
  simp only [Nat.testBit_and, hi, Bool.true_and] at h
  exact h

theorem testBit_and_decide_eq (f n i : Nat) :
    (f.testBit n && decide (n = i)) = (f.testBit i && decide (n = i)) := by
  by_cases h : n = i
  · rw [h]
  · simp [h]

namespace User

/-- C7: the flag accessors round-trip exactly.  For every User state `u`,
`setExtensions(getExtensions(u))` leaves `ext_deflate`, `ext_chat` and
`ext_palette` (indeed all of `u`) unchanged and
`setCapabilities(getCapabilities(u))` leaves `c_acks` unchanged; and for every
flag octet `f` made only of defined flag bits, `getExtensions` after
`setExtensions(f)` returns `f` and `getCapabilities` after
`setCapabilities(f)` returns `f`. -/
theorem flags_round_trip (pf : ProtocolFlags) (hd : pf.distinct) (u : User) (f g : Nat) :
    ((setExtensions pf (getExtensions pf u) u).ext_deflate = u.ext_deflate
      ∧ (setExtensions pf (getExtensions pf u) u).ext_chat = u.ext_chat
      ∧ (setExtensions pf (getExtensions pf u) u).ext_palette = u.ext_palette
      ∧ setExtensions pf (getExtensions pf u) u = u)
    ∧ ((setCapabilities pf (getCapabilities pf u) u).c_acks = u.c_acks
      ∧ setCapabilities pf (getCapabilities pf u) u = u)
    ∧ (f &&& pf.extensionMask = f → getExtensions pf (setExtensions pf f u) = f)
    ∧ (g &&& pf.capabilityMask = g → getCapabilities pf (setCapabilities pf g u) = g) := by
  obtain ⟨hdc, hdp, hcp⟩ := hd
  have hdc' : pf.Deflate.val ≠ pf.Chat.val := fun h => hdc (Fin.ext h)
  have hdp' : pf.Deflate.val ≠ pf.Palette.val := fun h => hdp (Fin.ext h)
  have hcp' : pf.Chat.val ≠ pf.Palette.val := fun h => hcp (Fin.ext h)
  have e1 : (getExtensions pf u).testBit pf.Deflate.val = u.ext_deflate := by
    simp [getExtensions, testBit_flag, hdc', hdp', hcp', Ne.symm hdc', Ne.symm hdp']
  have e2 : (getExtensions pf u).testBit pf.Chat.val = u.ext_chat := by
    simp [getExtensions, testBit_flag, hdc', hdp', hcp', Ne.symm hdc', Ne.symm hcp']
  have e3 : (getExtensions pf u).testBit pf.Palette.val = u.ext_palette := by
    simp [getExtensions, testBit_flag, hdc', hdp', hcp', Ne.symm hdp', Ne.symm hcp']
  have c1 : (getCapabilities pf u).testBit pf.AckFeedback.val = u.c_acks := by
    simp [getCapabilities, testBit_flag]
  refine ⟨⟨e1, e2, e3, ?_⟩, ⟨c1, ?_⟩, ?_, ?_⟩
  · simp only [setExtensions, e1, e2, e3]
  · simp only [setCapabilities, c1]
  · intro hf
    apply Nat.eq_of_testBit_eq
    intro i
    simp only [getExtensions, setExtensions, Nat.testBit_or, testBit_flag,
      testBit_and_decide_eq f _ i]
    by_cases hi : f.testBit i = true
    · have hm := testBit_of_and_mask hf i hi
      simp only [ProtocolFlags.extensionMask, Nat.testBit_or, Nat.testBit_two_pow,
        Bool.or_eq_true, decide_eq_true_eq] at hm
      rcases hm with (hm | hm) | hm <;> simp [hm, hi]
    · have hi' : f.testBit i = false := by simpa using hi
      simp [hi']
  · intro hg
    apply Nat.eq_of_testBit_eq
    intro i
    simp only [getCapabilities, setCapabilities, testBit_flag, testBit_and_decide_eq g _ i]
    by_cases hi : g.testBit i = true
    · have hm := testBit_of_and_mask hg i hi
      simp only [ProtocolFlags.capabilityMask, Nat.testBit_two_pow,
        decide_eq_true_eq] at hm
      simp [hm, hi]
    · have hi' : g.testBit i = false := by simpa using hi
      simp [hi']

/-- Witness for C7: deflate on bit 0, chat on bit 1, palette on bit 2, a user
with deflate and palette negotiated, and the extension octet `0b101`. -/
theorem flags_round_trip_witness :
    (ProtocolFlags.mk 0 0 1 2).distinct
    ∧ 5 &&& (ProtocolFlags.mk 0 0 1 2).extensionMask = 5
    ∧ 1 &&& (ProtocolFlags.mk 0 0 1 2).capabilityMask = 1
    ∧ getExtensions (ProtocolFlags.mk 0 0 1 2) (setExtensions (ProtocolFlags.mk 0 0 1 2) 5
        ⟨1, State.Login, 0, 0, false, true, true, false, true, 0, 0⟩) = 5
    ∧ getCapabilities (ProtocolFlags.mk 0 0 1 2) (setCapabilities (ProtocolFlags.mk 0 0 1 2) 1
        ⟨1, State.Login, 0, 0, false, true, true, false, true, 0, 0⟩) = 1 :=
  ⟨by decide, by decide, by decide,
   (flags_round_trip (ProtocolFlags.mk 0 0 1 2) (by decide)
      ⟨1, State.Login, 0, 0, false, true, true, false, true, 0, 0⟩ 5 1).2.2.1 (by decide),
   (flags_round_trip (ProtocolFlags.mk 0 0 1 2) (by decide)
      ⟨1, State.Login, 0, 0, false, true, true, false, true, 0, 0⟩ 5 1).2.2.2 (by decide)⟩

end User

/-! ## `Network` constants -/

namespace Network

/-- C8 at the constants: `Network::IPv4::AddrLength` is 16, while the example
address of its doc comment, "123.456.789.012", has 15 characters (as has the
longest dotted quad, "255.255.255.255"), so the constant is not the length of
its example; `Network::IPv6::AddrLength` does equal the length of its example
"ffff:ffff:ffff:ffff:ffff:ffff:ffff:ffff", and `Network::AddrLength` is the
larger of the two constants. -/
theorem IPv4_AddrLength_not_example_length :
    IPv4.AddrLength = 16
    ∧ IPv4.AddrLengthExample.length = 15
    ∧ IPv4.Broadcast.length = 15
    ∧ IPv4.AddrLength ≠ IPv4.AddrLengthExample.length
    ∧ IPv6.AddrLength = IPv6.AddrLengthExample.length
    ∧ AddrLength = max IPv6.AddrLength IPv4.AddrLength := by
  decide

/-- C9: for each `N` in 8, 16, 24, 32 the constant `Network::IPv4::HostMaskN` has
exactly its `N` most significant bits (of 32) set and all lower bits clear, and
equals the big-endian packing of the dotted-quad mask of its doc comment
(255.0.0.0, 255.255.0.0, 255.255.255.0, 255.255.255.255); `LocalhostAddress` is
the packing of 127.0.0.1 and `BroadcastAddress` the packing of
255.255.255.255, which are the addresses the `Localhost` and `Broadcast`
strings denote. -/
theorem IPv4_masks_and_addresses :
    (topBitsSet 8 IPv4.HostMask8 ∧ topBitsSet 16 IPv4.HostMask16
      ∧ topBitsSet 24 IPv4.HostMask24 ∧ topBitsSet 32 IPv4.HostMask32)
    ∧ (IPv4.HostMask8 = packQuad 255 0 0 0 ∧ IPv4.HostMask16 = packQuad 255 255 0 0
      ∧ IPv4.HostMask24 = packQuad 255 255 255 0
      ∧ IPv4.HostMask32 = packQuad 255 255 255 255)
    ∧ (parseDottedQuad "255.0.0.0" = some IPv4.HostMask8
      ∧ parseDottedQuad "255.255.0.0" = some IPv4.HostMask16
      ∧ parseDottedQuad "255.255.255.0" = some IPv4.HostMask24
      ∧ parseDottedQuad "255.255.255.255" = some IPv4.HostMask32)
    ∧ (IPv4.LocalhostAddress = packQuad 127 0 0 1
      ∧ parseDottedQuad IPv4.Localhost = some IPv4.LocalhostAddress)
    ∧ (IPv4.BroadcastAddress = packQuad 255 255 255 255
      ∧ parseDottedQuad IPv4.Broadcast = some IPv4.BroadcastAddress) := by
  refine ⟨⟨?_, ?_, ?_, ?_⟩, ⟨?_, ?_, ?_, ?_⟩, ⟨?_, ?_, ?_, ?_⟩, ⟨?_, ?_⟩, ⟨?_, ?_⟩⟩ <;> decide

end Network
